import Mathlib

/-!
Shallow embedding of the interactive_QA HTTP backend (Carey99/interactive_QA).

The repository relays user questions to a chat-completion provider and exposes
health/statistics endpoints.  Pure computations (confidence scoring, source
extraction, counter updates, response shaping) are translated into Lean
functions; the outbound provider call is a parameter (an outcome value or a
function from the outbound message to an outcome), and elapsed wall-clock time
is an explicit nonnegative rational parameter.  Python float `round(x, 2)` is
modelled as exact rational rounding of hundredths.
-/

/-- Python substring test on character lists: `isPrefixList p l` holds when
`p` is an initial segment of `l`. -/
def isPrefixList : List Char → List Char → Bool
  | [], _ => true
  | _ :: _, [] => false
  | p :: ps, c :: cs => p == c && isPrefixList ps cs

/-- Python `pat in hay` on character lists: some suffix of `hay` starts with
`pat`. -/
def containsSub (pat : List Char) : List Char → Bool
  | [] => isPrefixList pat []
  | c :: cs => isPrefixList pat (c :: cs) || containsSub pat cs

/-- Python `s.lower()` as a character list (`str.lower` maps each character;
the questions and answers here are ASCII). -/
def lowerChars (s : String) : List Char := s.data.map Char.toLower

/-- Python `pat.lower() in content.lower()` (the case-insensitive substring
test used throughout `llm_service.py`). -/
def strContains (content pat : String) : Bool :=
  containsSub (lowerChars pat) (lowerChars content)

/-- Python `round(q, 2)` modelled on exact rationals (round half up to a
multiple of 1/100; binary-float round-half-even agrees away from exact
half-cent boundaries, and no claim probes such a boundary). -/
def round2 (q : ℚ) : ℚ := ((⌊q * 100 + 1 / 2⌋ : ℤ) : ℚ) / 100

/-- In-memory performance counters of `LLMService.__init__`
(`_total_requests`, `_total_response_time`); shared by the `llm_service.py`
and `llm_service_http.py` variants. -/
structure Metrics where
  totalRequests : ℕ
  totalResponseTime : ℚ
deriving DecidableEq, Repr

/-- Counter state at process start (`LLMService.__init__` lines 46-47). -/
def initMetrics : Metrics := ⟨0, 0⟩

/-- `LLMService._update_metrics`: increment the request counter and add the
elapsed time to the cumulative latency. -/
def update_metrics (m : Metrics) (t : ℚ) : Metrics :=
  ⟨m.totalRequests + 1, m.totalResponseTime + t⟩

/-- The provider payload as seen by the relay: either the nested
`choices[0].message.content` chain resolves to a string, or some field along
that chain is missing/mistyped (a malformed payload). -/
inductive Payload where
  | wellFormed (content : String)
  | malformed
deriving DecidableEq, Repr

/-- Resolving `response.choices[0].message.content`: `none` models the
attribute/key error a malformed payload raises. -/
def getContent : Payload → Option String
  | .wellFormed c => some c
  | .malformed => none

/-- Outcome of `client.chat.completions.create` in `_call_groq_api`
(`llm_service.py`): either a transport-level success carrying a payload, or an
exception (timeout, network failure, non-2xx raised by the SDK), wrapped as
`LLMServiceError` before it leaves `_call_groq_api`. -/
inductive GroqCall where
  | success (payload : Payload)
  | failure (msg : String)
deriving DecidableEq, Repr

/-- `quality_indicators` list of `LLMService._calculate_confidence`. -/
def quality_indicators : List String :=
  ["required", "documents", "steps", "process",
   "regulations", "official", "website", "contact"]

/-- `LLMService._calculate_confidence`: base 0.85, plus a length bonus capped
at 0.1, plus 0.01 per matched quality indicator, clamped to 0.98 and rounded
to two decimals. -/
def calculate_confidence (content : String) : ℚ :=
  let base : ℚ := 85 / 100
  let lengthFactor : ℚ := min ((content.length : ℚ) / 1000) (1 / 10)
  let qualityScore : ℚ :=
    ((quality_indicators.filter (fun i => strContains content i)).length : ℚ) * (1 / 100)
  round2 (min (base + lengthFactor + qualityScore) (98 / 100))

/-- `source_patterns` list of `LLMService._extract_sources`. -/
def source_patterns : List String :=
  ["Ministry", "Department", "Government", "Official",
   "Embassy", "Consulate", "Chamber of Commerce",
   "Registration Service", "Tax Authority", "Immigration"]

/-- `LLMService._extract_sources`: scan for institution-name substrings
(case-insensitive), then append the fixed suggestions for the
visa/travel, business-registration and tax keywords, cap at 5, and return
`none` when nothing accumulated. -/
def extract_sources (content : String) : Option (List String) :=
  let sources := source_patterns.filter (fun p => strContains content p)
  let sources :=
    if strContains content "visa" || strContains content "travel" then
      sources ++ ["Immigration Service", "Embassy"]
    else sources
  let sources :=
    if strContains content "business registration" then
      sources ++ ["Business Registration Service", "Chamber of Commerce"]
    else sources
  let sources :=
    if strContains content "tax" then sources ++ ["Tax Authority"] else sources
  if sources.isEmpty then none else some (sources.take 5)

/-- `LLMService._build_user_message`: prepend the context block when context
is present, otherwise pass the question through unchanged. -/
def build_user_message (question : String) (context : Option String) : String :=
  match context with
  | some c => "\n**Context:** " ++ c ++ "\n\n**Question:** " ++ question ++ "\n"
  | none => question

/-- The dictionary `LLMService.generate_response` returns on success
(the keys of `result` at lines 93-99). -/
structure GenResponse where
  answer : String
  confidence : ℚ
  processing_time : ℚ
  model_used : String
  sources : Option (List String)
deriving DecidableEq, Repr

/-- Result of `LLMService.generate_response`: the success dictionary, or the
`LLMServiceError` its blanket `except` raises. -/
inductive GenResult where
  | ok (r : GenResponse)
  | llmError (msg : String)
deriving DecidableEq, Repr

/-- `LLMService.generate_response`.  The provider is a function from the
built user message to a call outcome; `elapsed` is the measured wall-clock
duration of the call.  On transport success the metrics are updated first
(line 90) and only then is the payload destructured (line 94), so a malformed
payload still increments the counters before raising; every exception is
wrapped as `LLMServiceError` by the blanket `except` at lines 104-106. -/
def generate_response (model : String) (provider : String → GroqCall)
    (elapsed : ℚ) (question : String) (context : Option String)
    (m : Metrics) : GenResult × Metrics :=
  match provider (build_user_message question context) with
  | .failure msg =>
      (.llmError ("Failed to generate response: Groq API error: " ++ msg), m)
  | .success p =>
      let m' := update_metrics m elapsed
      match getContent p with
      | none => (.llmError "Failed to generate response: malformed payload", m')
      | some content =>
          (.ok { answer := content,
                 confidence := calculate_confidence content,
                 processing_time := round2 elapsed,
                 model_used := model,
                 sources := extract_sources content }, m')

/-- Outcome of the `POST /api/ask` route of `main.py` (and `vercel_app.py`):
FastAPI rejects the request body before the handler runs when the Pydantic
bounds fail (`validationError`), the handler returns the response model, or
one of its two `except` arms raises an `HTTPException` with the given
status. -/
inductive AskOutcome where
  | ok (r : GenResponse)
  | httpError (status : ℕ)
  | validationError
deriving DecidableEq, Repr

/-- Top-level JSON keys of the body the `main.py` exception handler produces
for an `HTTPException` (lines 237-245), and of a success body
(`QuestionResponse` fields).  Used to state that error bodies carry no
`answer` field. -/
def ask_body_keys : AskOutcome → List String
  | .ok _ => ["answer", "confidence", "processing_time", "model_used",
              "sources", "timestamp"]
  | .httpError _ => ["error", "message", "status_code", "timestamp"]
  | .validationError => ["detail"]

/-- Pydantic validation of `QuestionRequest` (`models/requests.py`):
`question` needs 1..2000 characters, `context` at most 1000.  Whitespace
counts towards `min_length`, so a blank question passes. -/
def question_request_valid (question : String) (context : Option String) : Bool :=
  decide (1 ≤ question.length) && decide (question.length ≤ 2000) &&
    (match context with
     | some c => decide (c.length ≤ 1000)
     | none => true)

/-- Pydantic validation of `QuestionResponse` (`models/responses.py`):
`confidence` has bounds `ge=0, le=1` and `processing_time` has `gt=0`; a
response violating them raises a `ValidationError` inside the handler. -/
def question_response_valid (r : GenResponse) : Bool :=
  decide (0 ≤ r.confidence) && decide (r.confidence ≤ 1) &&
    decide (0 < r.processing_time)

/-- The `POST /api/ask` route of `main.py` (`ask_question`, lines 147-199):
request validation, then `generate_response`; an `LLMServiceError` maps to a
503 `HTTPException`, any other exception (including the `ValidationError`
from building `QuestionResponse`) maps to 500.  The final `Bool` records
whether the provider was invoked. -/
def mainPy_ask (model : String) (provider : String → GroqCall) (elapsed : ℚ)
    (question : String) (context : Option String) (m : Metrics) :
    AskOutcome × Metrics × Bool :=
  if question_request_valid question context then
    match generate_response model provider elapsed question context m with
    | (.ok r, m') =>
        if question_response_valid r then (.ok r, m', true)
        else (.httpError 500, m', true)
    | (.llmError _, m') => (.httpError 503, m', true)
  else (.validationError, m, false)

/-- Result of the `GET /health` route of `main.py` (`health_check`,
lines 119-144): always a structured `HealthResponse`, never an HTTP error. -/
structure HealthResult where
  status : String
  llm_service_status : String
deriving DecidableEq, Repr

/-- The `GET /health` route of `main.py`: the argument is the outcome of
`get_llm_service()` followed by `llm_service.health_check()` (an
`Except` models the exception path); every exception is converted into a
degraded `HealthResponse`. -/
def mainPy_health (outcome : Except String String) : HealthResult :=
  match outcome with
  | .ok llmStatus => { status := "healthy", llm_service_status := llmStatus }
  | .error _ => { status := "degraded", llm_service_status := "disconnected" }

/-- Outcome of the `GET /api/stats` route of `main.py`: either the stats body
or an `HTTPException` status. -/
inductive StatsOutcome where
  | ok (stats : Metrics)
  | httpError (status : ℕ)
deriving DecidableEq, Repr

/-- The `GET /api/stats` route of `main.py` (`get_performance_stats`,
lines 202-227): on any exception (e.g. `get_llm_service()` raising
`RuntimeError` before the service is set up) it raises an `HTTPException`
with status 500. -/
def mainPy_stats (outcome : Except String Metrics) : StatsOutcome :=
  match outcome with
  | .ok m => .ok m
  | .error _ => .httpError 500

/-- Average latency reported by `LLMService.get_performance_stats`
(lines 302-305) and by `LLMService.health_check` (lines 131-133): the divisor
is `max(total_requests, 1)`. -/
def average_response_time (m : Metrics) : ℚ :=
  round2 (m.totalResponseTime / ((max m.totalRequests 1 : ℕ) : ℚ))

/-- Average latency reported by `LLMServiceHTTP.get_statistics`
(lines 195-198): the division is guarded by a `total_requests > 0` check and
defaults to 0. -/
def get_statistics_avg (m : Metrics) : ℚ :=
  round2 (if 0 < m.totalRequests then
            m.totalResponseTime / (m.totalRequests : ℚ)
          else 0)

/-- The `GET /api/stats` route of `main_http.py` (`get_statistics`,
lines 199-227): exceptions are converted into a degraded body, never an HTTP
error status.  `true` in the result marks the degraded body. -/
def mainHttp_stats (outcome : Except String Metrics) : ℚ × Bool :=
  match outcome with
  | .ok m => (get_statistics_avg m, false)
  | .error _ => (0, true)

/-- Required fields of the `HealthResponse` Pydantic model
(`models/responses.py` lines 110-132; `timestamp` has a default). -/
def health_response_required : List String :=
  ["status", "message", "llm_service_status", "version"]

/-- Pydantic validation of a `HealthResponse(...)` construction: it succeeds
exactly when every required field name is among the keyword arguments
(unknown extra keywords are ignored under the default config). -/
def health_response_ctor_ok (kwargs : List String) : Bool :=
  health_response_required.all (fun f => decide (f ∈ kwargs))

/-- Keyword names `main.py` `health_check` passes to `HealthResponse` in both
of its arms (lines 131-136 and 139-144). -/
def mainPy_health_kwargs : List String :=
  ["status", "message", "llm_service_status", "version"]

/-- Keyword names `main_http.py` `health_check` passes to `HealthResponse` in
its `try` arm (lines 138-143): `llm_status` instead of `llm_service_status`,
and no `message`. -/
def mainHttp_health_kwargs_try : List String :=
  ["status", "timestamp", "llm_status", "version"]

/-- Keyword names `main_http.py` `health_check` passes to `HealthResponse` in
its `except` arm (lines 147-153). -/
def mainHttp_health_kwargs_except : List String :=
  ["status", "timestamp", "llm_status", "version", "error"]

/-- Outcome of the `GET /health` route of `main_http.py`: a structured body,
or an exception escaping the handler, answered by the app-level
`Exception` handler with the given HTTP status. -/
inductive HealthRouteOutcome where
  | body (status llmStatus : String)
  | httpError (status : ℕ)
deriving DecidableEq, Repr

/-- The `GET /health` route of `main_http.py` (`health_check`, lines
126-153).  The argument models `get_llm_service()` followed by
`check_health()` (`check_health` itself never raises and returns a Bool;
`Except.error` is `get_llm_service()` raising).  Each arm constructs
`HealthResponse` with the keyword names recorded above; when the required
fields are not covered, Pydantic raises a `ValidationError`: in the `try`
arm it is caught by the blanket `except`, whose own construction is checked
in turn, and a `ValidationError` raised in the `except` arm escapes to the
app-level handler as a 500. -/
def mainHttp_health (outcome : Except String Bool) : HealthRouteOutcome :=
  match outcome with
  | .ok healthy =>
      if health_response_ctor_ok mainHttp_health_kwargs_try then
        .body (if healthy then "healthy" else "degraded")
          (if healthy then "connected" else "disconnected")
      else
        if health_response_ctor_ok mainHttp_health_kwargs_except then
          .body "unhealthy" "error"
        else .httpError 500
  | .error _ =>
      if health_response_ctor_ok mainHttp_health_kwargs_except then
        .body "unhealthy" "error"
      else .httpError 500

/-- Outcome of `httpx` `client.post` + `raise_for_status` in
`LLMServiceHTTP.ask_question`: a 2xx response carrying a payload, a
`HTTPStatusError` for a non-2xx status, or a `RequestError` (network failure
or timeout; `httpx.TimeoutException` is a `RequestError`). -/
inductive HttpCallOutcome where
  | ok (payload : Payload)
  | statusError (code : ℕ)
  | requestError (msg : String)
deriving DecidableEq, Repr

/-- `LLMServiceHTTP.ask_question` (lines 79-142): the question is relayed,
the content extracted, and the counters updated only after a successful
extraction (lines 114 then 120-122, unlike `llm_service.py` which updates
them before destructuring).  Every failure arm raises `LLMServiceError`,
modelled as `Except.error`. -/
def ask_question_http (model : String) (call : HttpCallOutcome) (elapsed : ℚ)
    (m : Metrics) : Except String (String × ℚ × String) × Metrics :=
  match call with
  | .statusError code =>
      (.error ("API request failed: " ++ toString code), m)
  | .requestError msg => (.error ("Network error: " ++ msg), m)
  | .ok p =>
      match getContent p with
      | none => (.error "Service error: malformed payload", m)
      | some content =>
          (.ok (content, elapsed, model), update_metrics m elapsed)

/-- Python `not s.strip()`: true when every character of `s` is whitespace
(so `s.strip()` is empty), in particular when `s` itself is empty. -/
def stripBlank (s : String) : Bool := s.data.all Char.isWhitespace

/-- Outcome of the `POST /api/ask` route of `main_http.py`. -/
inductive MainHttpAsk where
  | okResponse
  | httpErr (status : ℕ)
  | validationError
deriving DecidableEq, Repr

/-- The `POST /api/ask` route of `main_http.py` (`ask_question`,
lines 156-196).  Pydantic bounds run first; then the handler's own blank
check raises `HTTPException(400)` — but that raise happens inside the `try`,
and `HTTPException` is not an `LLMServiceError`, so the blanket
`except Exception` arm catches the handler's own 400 and re-raises it as a
500.  A service failure maps to 503.  On service success the handler builds
`QuestionResponse(response=..., response_time=..., model=...)`, whose
required fields are `answer`/`processing_time`/`model_used`
(`models/responses.py`), so Pydantic raises a `ValidationError` that the same
blanket arm converts to 500.  The final `Bool` records whether the provider
was invoked. -/
def mainHttp_ask (model : String) (call : HttpCallOutcome) (elapsed : ℚ)
    (question : String) (m : Metrics) : MainHttpAsk × Metrics × Bool :=
  if question_request_valid question none then
    if stripBlank question then (.httpErr 500, m, false)
    else
      match ask_question_http model call elapsed m with
      | (.error _, m') => (.httpErr 503, m', true)
      | (.ok _, m') => (.httpErr 500, m', true)
  else (.validationError, m, false)

/-- Outcome of the raw `requests.post` call in `api/index.py`
`call_groq_api`: a transport-level response with its status code and (for
2xx) the extracted content, or a raised exception (timeout, connection
error).  A 200 whose JSON lacks the `choices` chain raises inside the `try`
and lands in the generic `except`, so it is modelled as `exn`. -/
inductive ProviderOutcome where
  | status200 (content : String)
  | statusOther (code : ℕ)
  | exn (msg : String)
deriving DecidableEq, Repr

/-- The body dictionary `api/index.py` `call_groq_api` returns (the union of
the keys of its four return sites; absent keys are `none`). -/
structure AskResult where
  answer : String
  confidence : ℚ
  model : Option String
  processing_time : Option ℚ
  errorTag : Option String
deriving DecidableEq, Repr

/-- The fixed answer `call_groq_api` returns when the credential is absent. -/
def notConfiguredAnswer : String :=
  "AI service is not configured. Please check the GROQ_API_KEY environment variable."

/-- Python truthiness of `os.getenv('GROQ_API_KEY')`: unset (`None`) and the
empty string are both falsy. -/
def keyPresent : Option String → Bool
  | none => false
  | some k => !k.isEmpty

/-- `api/index.py` `call_groq_api` (lines 9-96).  When the credential is
falsy it returns the fixed not-configured body without touching the network;
otherwise the outbound call runs and the result is shaped by status.  The
`Bool` records whether the outbound call was made. -/
def call_groq_api (apiKey : Option String) (provider : ProviderOutcome)
    (elapsed : ℚ) : AskResult × Bool :=
  if keyPresent apiKey then
    match provider with
    | .status200 content =>
        ({ answer := content, confidence := 9 / 10,
           model := some "llama-3.1-8b-instant",
           processing_time := some (round2 elapsed), errorTag := none }, true)
    | .statusOther code =>
        ({ answer := "Sorry, I encountered an error while processing your question. The AI service returned: "
             ++ toString code,
           confidence := 0, model := none, processing_time := none,
           errorTag := some ("api_error_" ++ toString code) }, true)
    | .exn msg =>
        ({ answer := "Sorry, I encountered an error: " ++ msg,
           confidence := 0, model := none, processing_time := none,
           errorTag := some "processing_error" }, true)
  else
    ({ answer := notConfiguredAnswer, confidence := 0, model := none,
       processing_time := none, errorTag := some "missing_api_key" }, false)

/-- Top-level JSON keys of a `call_groq_api` body (dict literals at its
return sites), in source order. -/
def ask_result_keys (r : AskResult) : List String :=
  ["answer", "confidence"]
    ++ (if r.model.isSome then ["model"] else [])
    ++ (if r.processing_time.isSome then ["processing_time"] else [])
    ++ (if r.errorTag.isSome then ["error"] else [])

/-- Body of a `POST` response of the raw handler in `api/index.py`. -/
inductive IndexPostBody where
  | askBody (r : AskResult)
  | emptyQuestionError
  | endpointNotFound
deriving DecidableEq, Repr

/-- Top-level JSON keys of an `IndexPostBody` as serialised by `do_POST`
(the ask body is the `call_groq_api` dict plus a `timestamp`). -/
def index_body_keys : IndexPostBody → List String
  | .askBody r => ask_result_keys r ++ ["timestamp"]
  | .emptyQuestionError => ["error", "message", "timestamp"]
  | .endpointNotFound => ["error"]

/-- `api/index.py` `handler.do_POST` (lines 130-172): `send_response(200)` is
issued before any routing, so the HTTP status is always 200; an empty
question (Python falsy — whitespace is truthy) yields an error body, and any
other question is forwarded to `call_groq_api`.  The `Bool` records whether
the provider was invoked. -/
def index_do_POST (apiKey : Option String) (provider : ProviderOutcome)
    (elapsed : ℚ) (path question : String) :
    ℕ × IndexPostBody × Bool :=
  if path = "/api/ask" then
    if question.isEmpty then (200, .emptyQuestionError, false)
    else
      let (r, called) := call_groq_api apiKey provider elapsed
      (200, .askBody r, called)
  else (200, .endpointNotFound, false)

/-- `api/index.py` `handler.do_GET` on `/health` (lines 109-116): the
`llm_service_status` field is `"connected"` exactly when the credential is
truthy; no network call is made. -/
def index_health_llm_status (apiKey : Option String) : String :=
  if keyPresent apiKey then "connected" else "disconnected"

/-- The literal round-trip question from the spec and the `main.py`
docstring. -/
def kenyaQuestion : String :=
  "What documents do I need to travel from Kenya to Ireland?"

/-- A fixed 50-word stub answer standing in for the provider in the
round-trip property. -/
def stubAnswer : String :=
  "To travel from Kenya to Ireland you need a valid Kenyan passport, an Irish short stay visa, return flight tickets, proof of accommodation, bank statements showing sufficient funds, travel insurance, and a yellow fever certificate. Apply through the official visa office in Nairobi several weeks before your planned departure date."

/-- Source-extraction procedure exactly as claim C9 words it: an
institution-substring scan plus injections for the keywords visa, tax and
business registration only (no travel keyword), capped at 5 entries, `none`
when nothing matched.  Kept separate from `extract_sources` (the code) so
the two can be compared. -/
def claim_extract_sources (content : String) : Option (List String) :=
  let matched := source_patterns.filter (fun p => strContains content p)
  let injected :=
    (if strContains content "visa" then
       ["Immigration Service", "Embassy"] else [])
      ++ (if strContains content "business registration" then
            ["Business Registration Service", "Chamber of Commerce"] else [])
      ++ (if strContains content "tax" then ["Tax Authority"] else [])
  let all := matched ++ injected
  if all.isEmpty then none else some (all.take 5)

/-- Claim C9 procedure amended by adding "travel" to the visa keyword test,
matching `or "travel" in content.lower()` at line 273 of
`llm_service.py`. -/
def amended_extract_sources (content : String) : Option (List String) :=
  let matched := source_patterns.filter (fun p => strContains content p)
  let injected :=
    (if strContains content "visa" || strContains content "travel" then
       ["Immigration Service", "Embassy"] else [])
      ++ (if strContains content "business registration" then
            ["Business Registration Service", "Chamber of Commerce"] else [])
      ++ (if strContains content "tax" then ["Tax Authority"] else [])
  let all := matched ++ injected
  if all.isEmpty then none else some (all.take 5)

/-- A sequence of successful relay calls through
`LLMService.generate_response`: each list entry is a question, the stubbed
provider content, and the elapsed time of that call; the metrics state is
threaded through. -/
def run_calls (model : String) (calls : List (String × String × ℚ))
    (m : Metrics) : Metrics :=
  calls.foldl
    (fun acc c =>
      (generate_response model
        (fun _ => GroqCall.success (Payload.wellFormed c.2.1))
        c.2.2 c.1 none acc).2)
    m

/-! Helper lemmas. -/

lemma round2_mono {a b : ℚ} (h : a ≤ b) : round2 a ≤ round2 b := by
  unfold round2
  have hf : (⌊a * 100 + 1 / 2⌋ : ℤ) ≤ ⌊b * 100 + 1 / 2⌋ :=
    Int.floor_le_floor (by linarith)
  have hc : ((⌊a * 100 + 1 / 2⌋ : ℤ) : ℚ) ≤ ((⌊b * 100 + 1 / 2⌋ : ℤ) : ℚ) := by
    exact_mod_cast hf
  linarith

lemma round2_pos {a : ℚ} (h : 5 / 1000 ≤ a) : 0 < round2 a := by
  unfold round2
  have h1 : (1 : ℤ) ≤ ⌊a * 100 + 1 / 2⌋ := by
    apply Int.le_floor.mpr
    push_cast
    linarith
  have h2 : (1 : ℚ) ≤ ((⌊a * 100 + 1 / 2⌋ : ℤ) : ℚ) := by exact_mod_cast h1
  linarith

lemma calculate_confidence_bounds (content : String) :
    85 / 100 ≤ calculate_confidence content ∧
      calculate_confidence content ≤ 98 / 100 := by
  unfold calculate_confidence
  set lf := min ((content.length : ℚ) / 1000) (1 / 10) with hlf
  set qs := ((quality_indicators.filter
      (fun i => strContains content i)).length : ℚ) * (1 / 100) with hqs
  have hlf0 : 0 ≤ lf := le_min (by positivity) (by norm_num)
  have hqs0 : 0 ≤ qs := by positivity
  have hlo : (85 : ℚ) / 100 ≤ min (85 / 100 + lf + qs) (98 / 100) :=
    le_min (by linarith) (by norm_num)
  have hhi : min ((85 : ℚ) / 100 + lf + qs) (98 / 100) ≤ 98 / 100 :=
    min_le_right _ _
  constructor
  · calc (85 : ℚ) / 100 = round2 (85 / 100) := by norm_num [round2]
      _ ≤ round2 (min (85 / 100 + lf + qs) (98 / 100)) := round2_mono hlo
  · calc round2 (min ((85 : ℚ) / 100 + lf + qs) (98 / 100))
        ≤ round2 (98 / 100) := round2_mono hhi
      _ = 98 / 100 := by norm_num [round2]

lemma run_calls_totalRequests (model : String)
    (calls : List (String × String × ℚ)) (m : Metrics) :
    (run_calls model calls m).totalRequests = m.totalRequests + calls.length := by
  induction calls generalizing m with
  | nil => rfl
  | cons c cs ih =>
      have hstep : run_calls model (c :: cs) m
          = run_calls model cs (update_metrics m c.2.2) := rfl
      rw [hstep, ih]
      simp [update_metrics]
      omega



/-! Claim theorems. -/

/-- C5: when the provider credential is absent, `POST /api/ask` (raw handler,
`api/index.py`) returns the deterministic not-configured answer with
confidence 0 and does not invoke the provider, and `GET /health` reports
`llm_service_status = "disconnected"`. -/
theorem C5_missing_key (apiKey : Option String) (provider : ProviderOutcome)
    (elapsed : ℚ) (question : String)
    (hkey : keyPresent apiKey = false) (hq : question.isEmpty = false) :
    index_do_POST apiKey provider elapsed "/api/ask" question
      = (200, .askBody
          { answer := notConfiguredAnswer, confidence := 0,
            model := none, processing_time := none,
            errorTag := some "missing_api_key" }, false) ∧
    index_health_llm_status apiKey = "disconnected" := by
  constructor
  · unfold index_do_POST call_groq_api
    simp [hkey, hq]
  · unfold index_health_llm_status
    simp [hkey]

theorem C5_witness :
    index_do_POST none (ProviderOutcome.status200 "x") 1 "/api/ask" kenyaQuestion
      = (200, .askBody
          { answer := notConfiguredAnswer, confidence := 0,
            model := none, processing_time := none,
            errorTag := some "missing_api_key" }, false) ∧
    index_health_llm_status none = "disconnected" :=
  C5_missing_key none (ProviderOutcome.status200 "x") 1 kenyaQuestion rfl rfl

/-- C8: for every successful provider call through
`LLMService.generate_response`, the `answer` field equals the provider
message content verbatim and `model_used` equals the configured model
identifier; in particular this holds for the literal Kenya-to-Ireland
question with no context against a stubbed provider returning a fixed
50-word answer and the default configured model. -/
theorem C8_roundtrip_verbatim (model content question : String)
    (context : Option String) (elapsed : ℚ) (m : Metrics) :
    (generate_response model
        (fun _ => GroqCall.success (Payload.wellFormed content))
        elapsed question context m).1
      = GenResult.ok
          { answer := content, confidence := calculate_confidence content,
            processing_time := round2 elapsed, model_used := model,
            sources := extract_sources content } ∧
    (generate_response "llama-3.1-8b-instant"
        (fun _ => GroqCall.success (Payload.wellFormed stubAnswer))
        1 kenyaQuestion none initMetrics).1
      = GenResult.ok
          { answer := stubAnswer,
            confidence := calculate_confidence stubAnswer,
            processing_time := round2 1,
            model_used := "llama-3.1-8b-instant",
            sources := extract_sources stubAnswer } :=
  ⟨rfl, rfl⟩

/-- C10: computing the average response time is total even before any request
has completed: the `llm_service.py` divisor is `max(total_requests, 1)`,
hence positive for every counter state; the `llm_service_http.py` variant
guards the division with a zero check and reports 0 when no requests have
been made; and at process start both report an average of 0. -/
theorem C10_average_total (m : Metrics) :
    0 < max m.totalRequests 1 ∧
    (m.totalRequests = 0 → get_statistics_avg m = 0) ∧
    average_response_time initMetrics = 0 ∧
    get_statistics_avg initMetrics = 0 := by
  refine ⟨?_, ?_, ?_, ?_⟩
  · omega
  · intro h
    unfold get_statistics_avg
    rw [h]
    norm_num [round2]
  · unfold average_response_time initMetrics
    norm_num [round2]
  · unfold get_statistics_avg initMetrics
    norm_num [round2]

theorem C10_witness :
    0 < max (Metrics.mk 0 5).totalRequests 1 ∧
    get_statistics_avg (Metrics.mk 0 5) = 0 ∧
    average_response_time initMetrics = 0 ∧
    get_statistics_avg initMetrics = 0 :=
  ⟨(C10_average_total (Metrics.mk 0 5)).1,
   (C10_average_total (Metrics.mk 0 5)).2.1 rfl,
   (C10_average_total (Metrics.mk 0 5)).2.2.1,
   (C10_average_total (Metrics.mk 0 5)).2.2.2⟩

/-- C7: the in-memory counters start at zero, every relay operation leaves
both counters non-decreasing (given a nonnegative elapsed time), and after
exactly N successful relay calls `total_requests` equals N. -/
theorem C7_counters (model : String) (provider : String → GroqCall)
    (elapsed : ℚ) (question : String) (context : Option String) (m : Metrics)
    (calls : List (String × String × ℚ)) (h : 0 ≤ elapsed) :
    initMetrics.totalRequests = 0 ∧ initMetrics.totalResponseTime = 0 ∧
    m.totalRequests
      ≤ ((generate_response model provider elapsed question context m).2).totalRequests ∧
    m.totalResponseTime
      ≤ ((generate_response model provider elapsed question context m).2).totalResponseTime ∧
    (run_calls model calls initMetrics).totalRequests = calls.length := by
  have key : (generate_response model provider elapsed question context m).2 = m ∨
      (generate_response model provider elapsed question context m).2
        = update_metrics m elapsed := by
    unfold generate_response
    rcases hp : provider (build_user_message question context) with p | msg
    · rcases hg : getContent p with _ | c <;> simp [hp, hg]
    · simp [hp]
  refine ⟨rfl, rfl, ?_, ?_, ?_⟩
  · rcases key with hk | hk
    · rw [hk]
    · rw [hk]
      simp [update_metrics]
  · rcases key with hk | hk
    · rw [hk]
    · rw [hk]
      simp only [update_metrics]
      linarith
  · rw [run_calls_totalRequests]
    simp [initMetrics]

theorem C7_witness :
    initMetrics.totalRequests = 0 ∧ initMetrics.totalResponseTime = 0 ∧
    initMetrics.totalRequests
      ≤ ((generate_response "m"
          (fun _ => GroqCall.success (Payload.wellFormed "a"))
          1 "q" none initMetrics).2).totalRequests ∧
    initMetrics.totalResponseTime
      ≤ ((generate_response "m"
          (fun _ => GroqCall.success (Payload.wellFormed "a"))
          1 "q" none initMetrics).2).totalResponseTime ∧
    (run_calls "m" [("q", "a", 1)] initMetrics).totalRequests = 1 :=
  C7_counters "m" (fun _ => GroqCall.success (Payload.wellFormed "a"))
    1 "q" none initMetrics [("q", "a", 1)] (by norm_num)

/-- C4 counterexample: an internal error in the `GET /api/stats` route of
`main.py` (here: the LLM service not yet set up, so `get_llm_service()`
raises) is surfaced as an `HTTPException` with status 500, not as a
structured degraded status object; and the `GET /health` route of
`main_http.py` answers HTTP 500 even on a healthy service, because its
`HealthResponse` construction misses the model's required fields. -/
theorem C4_counterexample :
    mainPy_stats (Except.error "service not set up") = StatsOutcome.httpError 500 ∧
    StatsOutcome.httpError 500 ≠ StatsOutcome.ok initMetrics ∧
    mainHttp_health (Except.ok true) = HealthRouteOutcome.httpError 500 := by
  refine ⟨rfl, ?_, rfl⟩
  intro h
  cases h

/-- C4 amended: only the `main.py` (and `vercel_app.py`) `GET /health` route
never surfaces a hard failure — its `HealthResponse` construction covers the
required fields and every internal error becomes a structured
healthy/degraded status object — and the `main_http.py` stats route degrades
structurally as well; but the `main.py` `GET /api/stats` route maps internal
errors to an HTTP 500 error, and the `main_http.py` `GET /health` route
fails with HTTP 500 on every call, because both of its arms construct
`HealthResponse` with keyword names that miss the model's required
`message` and `llm_service_status` fields. -/
theorem C4_amended (o : Except String String) (e e2 : String)
    (oh : Except String Bool) :
    ((mainPy_health o).status = "healthy" ∨ (mainPy_health o).status = "degraded") ∧
    health_response_ctor_ok mainPy_health_kwargs = true ∧
    mainHttp_stats (Except.error e) = (0, true) ∧
    mainPy_stats (Except.error e2) = StatsOutcome.httpError 500 ∧
    mainHttp_health oh = HealthRouteOutcome.httpError 500 := by
  refine ⟨?_, rfl, rfl, rfl, ?_⟩
  · cases o with
    | ok s => left; rfl
    | error s => right; rfl
  · cases oh with
    | ok b => rfl
    | error s => rfl

/-- C3 counterexample: a transport-level success whose payload is malformed
is caught by the blanket `except` of `generate_response`, wrapped as
`LLMServiceError`, and mapped by the `main.py` `ask_question` route to a 503
response — not to the 500 the claim requires. -/
theorem C3_counterexample :
    (mainPy_ask "llama-3.1-8b-instant"
        (fun _ => GroqCall.success Payload.malformed)
        1 kenyaQuestion none initMetrics).1
      = AskOutcome.httpError 503 ∧
    AskOutcome.httpError 503 ≠ AskOutcome.httpError 500 := by
  constructor
  · rfl
  · intro h
    simp at h

/-- C3 amended: a malformed provider payload on a transport-level success is
signalled as an `LLMServiceError` (not a distinct internal error) and mapped
to a 503 response, the same status as provider unavailability, for every
request that passes validation. -/
theorem C3_amended (model question : String) (context : Option String)
    (elapsed : ℚ) (m : Metrics)
    (hq : question_request_valid question context = true) :
    (mainPy_ask model (fun _ => GroqCall.success Payload.malformed)
        elapsed question context m).1
      = AskOutcome.httpError 503 := by
  unfold mainPy_ask
  simp [hq, generate_response, getContent]

theorem C3_amended_witness :
    (mainPy_ask "llama-3.1-8b-instant"
        (fun _ => GroqCall.success Payload.malformed)
        1 kenyaQuestion none initMetrics).1
      = AskOutcome.httpError 503 :=
  C3_amended "llama-3.1-8b-instant" kenyaQuestion none 1 initMetrics rfl

/-- C2 counterexample: in the raw handler (`api/index.py`), a provider call
returning a non-2xx status yields an HTTP 200 response (the handler sends
its status before routing) whose body does contain an `answer` field —
not the 503-class, answer-free error the claim requires. -/
theorem C2_counterexample :
    (index_do_POST (some "k") (ProviderOutcome.statusOther 500)
        1 "/api/ask" kenyaQuestion).1 = 200 ∧
    "answer" ∈ index_body_keys
      (index_do_POST (some "k") (ProviderOutcome.statusOther 500)
        1 "/api/ask" kenyaQuestion).2.1 := by
  constructor
  · rfl
  · exact List.Mem.head _

/-- C2 amended: the framework variants (`main.py` via `LLMService`,
`main_http.py` via `LLMServiceHTTP`) map a provider timeout, network error or
non-2xx status to a 503 response whose body has no `answer` field; the raw
handler of `api/index.py` instead returns HTTP 200 with a body whose
`answer` field describes the error and confidence 0. -/
theorem C2_amended (model msg : String) (code : ℕ) (elapsed : ℚ) (m : Metrics) :
    (mainPy_ask model (fun _ => GroqCall.failure msg)
        elapsed kenyaQuestion none m).1 = AskOutcome.httpError 503 ∧
    "answer" ∉ ask_body_keys (AskOutcome.httpError 503) ∧
    (mainHttp_ask model (HttpCallOutcome.statusError code)
        elapsed kenyaQuestion m).1 = MainHttpAsk.httpErr 503 ∧
    (mainHttp_ask model (HttpCallOutcome.requestError msg)
        elapsed kenyaQuestion m).1 = MainHttpAsk.httpErr 503 ∧
    (call_groq_api (some "k") (ProviderOutcome.statusOther code) elapsed).1.confidence
      = 0 := by
  refine ⟨rfl, ?_, rfl, rfl, rfl⟩
  simp [ask_body_keys]

lemma mainPy_ask_rejected (model : String) (provider : String → GroqCall)
    (elapsed : ℚ) (question : String) (context : Option String) (m : Metrics)
    (r : GenResponse) (m' : Metrics)
    (hq : question_request_valid question context = true)
    (hgen : generate_response model provider elapsed question context m
      = (GenResult.ok r, m'))
    (hval : question_response_valid r = false) :
    (mainPy_ask model provider elapsed question context m).1
      = AskOutcome.httpError 500 := by
  unfold mainPy_ask
  rw [hq, hgen]
  show (if question_response_valid r = true
      then (AskOutcome.ok r, m', true)
      else (AskOutcome.httpError 500, m', true)).1 = AskOutcome.httpError 500
  rw [hval]
  simp

lemma mainPy_ask_calls_provider (model : String) (provider : String → GroqCall)
    (elapsed : ℚ) (question : String) (context : Option String) (m : Metrics)
    (hq : question_request_valid question context = true) :
    (mainPy_ask model provider elapsed question context m).2.2 = true := by
  unfold mainPy_ask
  rw [hq]
  simp only [eq_self_iff_true, if_true]
  rcases hg : generate_response model provider elapsed question context m with ⟨res, m'⟩
  cases res with
  | ok r =>
      cases hv : question_response_valid r <;> simp [hv]
  | llmError msg => rfl

/-- C1 evidence: a whitespace-only question (single space) sent to `main_http.py`
`POST /api/ask` produces an HTTP 500, not the intended 400 (the handler's own
`HTTPException(400)` is swallowed by its blanket `except Exception` arm),
while the raw handler of `api/index.py` and the `main.py` route both forward
the whitespace-only question to the provider. -/
theorem C1_blank_question_evidence :
    mainHttp_ask "llama-3.1-8b-instant"
        (HttpCallOutcome.ok (Payload.wellFormed "hi")) 1 " " initMetrics
      = (MainHttpAsk.httpErr 500, initMetrics, false) ∧
    (index_do_POST (some "k") (ProviderOutcome.status200 "ans")
        1 "/api/ask" " ").2.2 = true ∧
    (mainPy_ask "llama-3.1-8b-instant"
        (fun _ => GroqCall.success (Payload.wellFormed "ans"))
        1 " " none initMetrics).2.2 = true := by
  refine ⟨rfl, rfl, ?_⟩
  exact mainPy_ask_calls_provider _ _ _ _ _ _ rfl

/-- C6 counterexample: a successful provider call measured at 0.001 s yields
a response dictionary whose `processing_time` is `round(0.001, 2) = 0.0`,
not strictly positive; the `main.py` route then rejects its own response
model (`gt=0` bound) and answers 500. -/
theorem C6_counterexample :
    (generate_response "m"
        (fun _ => GroqCall.success (Payload.wellFormed "ans"))
        (1 / 1000) "q" none initMetrics).1
      = GenResult.ok
          { answer := "ans", confidence := calculate_confidence "ans",
            processing_time := round2 (1 / 1000), model_used := "m",
            sources := extract_sources "ans" } ∧
    round2 (1 / 1000) = 0 ∧
    (mainPy_ask "m"
        (fun _ => GroqCall.success (Payload.wellFormed "ans"))
        (1 / 1000) kenyaQuestion none initMetrics).1
      = AskOutcome.httpError 500 := by
  have h0 : round2 (1 / 1000) = 0 := by norm_num [round2]
  refine ⟨rfl, h0, ?_⟩
  have hval : question_response_valid
      { answer := "ans", confidence := calculate_confidence "ans",
        processing_time := round2 (1 / 1000), model_used := "m",
        sources := extract_sources "ans" } = false := by
    show (decide ((0 : ℚ) ≤ calculate_confidence "ans") &&
        decide (calculate_confidence "ans" ≤ 1) &&
        decide ((0 : ℚ) < round2 (1 / 1000))) = false
    rw [h0]
    simp
  exact mainPy_ask_rejected "m"
    (fun _ => GroqCall.success (Payload.wellFormed "ans"))
    (1 / 1000) kenyaQuestion none initMetrics _ _ rfl rfl hval

/-- C6 amended: for every valid question, a successful well-formed provider
call yields a response whose confidence lies strictly within [0,1] (in fact
within [0.85, 0.98]); its `processing_time` equals the elapsed wall time
rounded to two decimals, which is strictly positive whenever the call took
at least 0.005 seconds (calls faster than that round to 0.0 and the response
model's `gt=0` bound then rejects the response). -/
theorem C6_amended (model content question : String) (context : Option String)
    (elapsed : ℚ) (m : Metrics) (r : GenResponse)
    (h : 5 / 1000 ≤ elapsed)
    (hr : (generate_response model
        (fun _ => GroqCall.success (Payload.wellFormed content))
        elapsed question context m).1 = GenResult.ok r) :
    0 < r.confidence ∧ r.confidence < 1 ∧ 0 < r.processing_time := by
  have hgen : (generate_response model
      (fun _ => GroqCall.success (Payload.wellFormed content))
      elapsed question context m).1
      = GenResult.ok
          { answer := content, confidence := calculate_confidence content,
            processing_time := round2 elapsed, model_used := model,
            sources := extract_sources content } := rfl
  rw [hgen] at hr
  have hrec := (GenResult.ok.injEq _ _).mp hr
  rw [← hrec]
  show 0 < calculate_confidence content ∧
    calculate_confidence content < 1 ∧ 0 < round2 elapsed
  rcases calculate_confidence_bounds content with ⟨hlo, hhi⟩
  exact ⟨by linarith, by linarith, round2_pos h⟩

theorem C6_witness :
    0 < calculate_confidence "ans" ∧ calculate_confidence "ans" < 1 ∧
      0 < round2 1 :=
  C6_amended "m" "ans" "q" none 1 initMetrics
    { answer := "ans", confidence := calculate_confidence "ans",
      processing_time := round2 1, model_used := "m",
      sources := extract_sources "ans" }
    (by norm_num) rfl

lemma take5_shape (s l : List String)
    (hl : (if s.isEmpty then (none : Option (List String))
        else some (s.take 5)) = some l) :
    l.length ≤ 5 ∧ l ≠ [] := by
  cases s with
  | nil => simp at hl
  | cons a as =>
      simp only [List.isEmpty_cons, Bool.false_eq_true, if_false] at hl
      injection hl with h
      subst h
      exact ⟨List.length_take_le 5 (a :: as), by simp⟩

/-- C9 counterexample: the code also injects the fixed suggested sources on
the keyword "travel", which the claim omits: on an answer containing
"travel" but none of the claimed triggers, `_extract_sources` returns two
entries while the claimed procedure returns nothing. -/
theorem C9_counterexample :
    extract_sources "I plan to travel." = some ["Immigration Service", "Embassy"] ∧
    claim_extract_sources "I plan to travel." = none := by
  constructor <;> rfl

/-- C9 amended: the source-extraction function returns either `none` or a
list of at most 5 entries, obtained by case-insensitively scanning for the
fixed institution-name substrings and injecting fixed suggested-source
strings when the keywords visa, travel, tax, or business registration appear
in the content. -/
theorem C9_amended (content : String) :
    extract_sources content = amended_extract_sources content ∧
    ∀ l, extract_sources content = some l → l.length ≤ 5 ∧ l ≠ [] := by
  constructor
  · unfold extract_sources amended_extract_sources
    cases hv : strContains content "visa" || strContains content "travel" <;>
    cases hb : strContains content "business registration" <;>
    cases ht : strContains content "tax" <;>
      simp [hv, hb, ht, List.append_assoc]
  · intro l hl
    unfold extract_sources at hl
    exact take5_shape _ l hl

theorem C9_witness :
    extract_sources "visa" = amended_extract_sources "visa" ∧
    (["Immigration Service", "Embassy"] : List String).length ≤ 5 ∧
    (["Immigration Service", "Embassy"] : List String) ≠ [] :=
  ⟨(C9_amended "visa").1,
   (C9_amended "visa").2 ["Immigration Service", "Embassy"] rfl⟩
